import Mathlib

set_option maxRecDepth 100000
set_option maxHeartbeats 1000000

/-!
Verification of the priority-operation decoding core
(core/models/src/node/priority_ops.rs): the pubdata codec for Deposit and
FullExit operations, the op-type dispatcher, and the event-envelope
conversion from a contract log to a `PriorityOp` record.

Machine integers are modelled as `Nat` (with explicit `% 2 ^ w` where the
source narrows); byte buffers as `List Nat`; fallible Rust computations as
`RResult`, which distinguishes a returned `Err` from a process abort
(`panic`, as produced by `slice::split_at` out of bounds, `unwrap`,
`expect`, and `U256::as_u64` overflow).
-/

/-- Outcome of a Rust computation: an `Ok` value, a returned `Err`
(a `failure::Error`, carried as its message), or a process abort (panic). -/
inductive RResult (α : Type) where
  | ok : α → RResult α
  | error : String → RResult α
  | panic : String → RResult α
deriving DecidableEq

/-- True exactly on `ok` results. -/
def RResult.isOk {α : Type} : RResult α → Bool
  | .ok _ => true
  | _ => false

/-- True exactly on returned `error` results (not on panics). -/
def RResult.isError {α : Type} : RResult α → Bool
  | .error _ => true
  | _ => false

/-- True exactly on panics (process aborts), never on returned errors. -/
def RResult.isPanic {α : Type} : RResult α → Bool
  | .panic _ => true
  | _ => false

/-- Modelled from the spec: protocol field-width table (crate `params`, not
under src). Account-id width is one byte narrower than its u32 storage. -/
def ACCOUNT_ID_BIT_WIDTH : Nat := 24

/-- Modelled from the spec: ethereum address width (20 bytes). -/
def ETHEREUM_KEY_BIT_WIDTH : Nat := 160

/-- Modelled from the spec: token id width (16 bits). -/
def TOKEN_BIT_WIDTH : Nat := 16

/-- Modelled from the spec: balance/amount width (128 bits). -/
def BALANCE_BIT_WIDTH : Nat := 128

/-- Modelled from the spec: recipient address length in bytes. -/
def FR_ADDRESS_LEN : Nat := 20

/-- Modelled from the spec: the operation-descriptor registry's deposit
discriminant (crate `operations`, not under src; the exact value is not
fixed by the spec — chosen 1, distinct from the full-exit code 6). -/
def DepositOp.OP_CODE : Nat := 1

/-- Modelled from the spec: the full-exit discriminant; the spec and the
in-src constant `FullExit::TX_TYPE` fix it at 6. -/
def FullExitOp.OP_CODE : Nat := 6

/-- Big-endian interpretation of a byte list as an unsigned integer. -/
def beNat (bs : List Nat) : Nat := bs.foldl (fun a b => a * 256 + b) 0

/-- Big-endian byte encoding of `n` at width `w` bytes (as `to_be_bytes`). -/
def natToBeBytes : Nat → Nat → List Nat
  | 0, _ => []
  | w + 1, n => n / 256 ^ w % 256 :: natToBeBytes w n

/-- Rust `slice::split_at`: `some (prefix, rest)` when the index is in
bounds, `none` where Rust would panic. -/
def splitAt? (n : Nat) (l : List Nat) : Option (List Nat × List Nat) :=
  if n ≤ l.length then some (l.take n, l.drop n) else none

/-- Modelled from the spec: crate `primitives::bytes_slice_to_uint32` (not
under src) — reads at most four bytes, zero-padded at the front, as a
big-endian u32. -/
def bytes_slice_to_uint32 (bs : List Nat) : Option Nat :=
  if bs.length ≤ 4 then some (beNat bs) else none

/-- Modelled from the spec: the external arbitrary-precision decimal
(`bigdecimal` crate): an unsigned integer mantissa with a base-10 scale;
the denoted value is `intVal / 10 ^ scale`. -/
structure BigDecimal where
  intVal : Nat
  scale : Nat
deriving DecidableEq

/-- Modelled from the spec: crate `primitives::u128_to_bigdecimal` (not
under src) — the exact decimal with zero fractional digits. -/
def u128_to_bigdecimal (n : Nat) : BigDecimal := ⟨n, 0⟩

/-- Big-endian base-10 digit extraction, fuel-bounded (fuel `n + 1`
always suffices for input `n`). -/
def natToDigitsBE : Nat → Nat → List Nat
  | 0, _ => []
  | fuel + 1, n => if n < 10 then [n] else natToDigitsBE fuel (n / 10) ++ [n % 10]

/-- Modelled from the spec: `Display` formatting of a 256-bit integer as
its canonical base-10 digit string (digits most-significant first). -/
def formatNat (n : Nat) : List Nat := natToDigitsBE (n + 1) n

/-- Modelled from the spec: `BigDecimal::from_str` on a base-10 digit
string with no fractional part — the denoted integer at scale 0. -/
def BigDecimal.from_str (ds : List Nat) : BigDecimal :=
  ⟨ds.foldl (fun a d => a * 10 + d) 0, 0⟩

/-- Mirrors `struct Deposit`; `«from»`/`to` are 20-byte addresses, `token`
a u16, `amount` the decoded 128-bit amount as a decimal. -/
structure Deposit where
  «from» : List Nat
  token : Nat
  amount : BigDecimal
  «to» : List Nat
deriving DecidableEq

/-- Mirrors `struct FullExit`; `account_id` is a u32 value, `eth_address`
a 20-byte address, `token` a u16. -/
structure FullExit where
  account_id : Nat
  eth_address : List Nat
  token : Nat
deriving DecidableEq

/-- Mirrors `FullExit::TX_TYPE` (the in-src constant 6). -/
def FullExit.TX_TYPE : Nat := 6

/-- Mirrors `FullExit::get_bytes`: the tag byte, the account id's
big-endian u32 bytes with the most-significant byte dropped, the address,
and the token id as two big-endian bytes. -/
def FullExit.get_bytes (s : FullExit) : List Nat :=
  [FullExit.TX_TYPE] ++ (natToBeBytes 4 s.account_id).drop 1
    ++ s.eth_address ++ natToBeBytes 2 s.token

/-- Mirrors `enum FranklinPriorityOp`. -/
inductive FranklinPriorityOp where
  | Deposit : Deposit → FranklinPriorityOp
  | FullExit : FullExit → FranklinPriorityOp
deriving DecidableEq

/-- Message of the `ensure!` failure in the Deposit arm. -/
def depositTooBigMsg : String := "DepositOp parse failed: input too big"

/-- Message of the `ensure!` failure in the FullExit arm. -/
def fullExitTooBigMsg : String := "FullExitOp parse failed: input too big"

/-- Message of the `bail!` for an unknown op-type byte. -/
def unsupportedOpTypeMsg : String := "Unsupported priority op type"

/-- Panic message for `slice::split_at` past the end of the buffer. -/
def splitMidGtLenMsg : String := "slice split_at: mid greater than len"

/-- Panic message for `Option::unwrap` on `None`. -/
def unwrapNoneMsg : String := "called unwrap on a None value"

/-- Prefix of the envelope ABI-decode error in `try_from`. -/
def eventDecodeMsgPrefix : String := "Event data decode: "

/-- Panic message prefix of the `expect` around the pubdata parse. -/
def failedParsePrefix : String := "Failed to parse priority op data: "

/-- Panic message of `U256::as_u64` / `as_u32` on an out-of-range value. -/
def u256CastOverflowMsg : String := "Integer overflow when casting U256"

/-- Panic message of the `expect` around the missing transaction hash. -/
def missingTxHashMsg : String := "Event transaction hash is missing"

/-- Error payload of the modelled external ABI decoder. -/
def invalidAbiDataMsg : String := "InvalidData"

/-- The Deposit arm of `FranklinPriorityOp::parse_from_priority_queue_logs`:
consumes sender (20B), token (2B), amount (16B), recipient (20B) in order;
a short buffer panics in `split_at`, trailing bytes fail the `ensure!`. -/
def depositDecode (pub_data : List Nat) : RResult FranklinPriorityOp :=
  match splitAt? (ETHEREUM_KEY_BIT_WIDTH / 8) pub_data with
  | none => .panic splitMidGtLenMsg
  | some (sender, l1) =>
    match splitAt? (TOKEN_BIT_WIDTH / 8) l1 with
    | none => .panic splitMidGtLenMsg
    | some (tokenBytes, l2) =>
      match splitAt? (BALANCE_BIT_WIDTH / 8) l2 with
      | none => .panic splitMidGtLenMsg
      | some (amountBytes, l3) =>
        match splitAt? FR_ADDRESS_LEN l3 with
        | none => .panic splitMidGtLenMsg
        | some (account, l4) =>
          if l4 = [] then
            .ok (.Deposit ⟨sender, beNat tokenBytes,
              u128_to_bigdecimal (beNat amountBytes), account⟩)
          else .error depositTooBigMsg

/-- The FullExit arm of `parse_from_priority_queue_logs`: consumes
account id (3B, via `bytes_slice_to_uint32`), address (20B), token (2B);
a short buffer panics in `split_at`, trailing bytes fail the `ensure!`. -/
def fullExitDecode (pub_data : List Nat) : RResult FranklinPriorityOp :=
  match splitAt? (ACCOUNT_ID_BIT_WIDTH / 8) pub_data with
  | none => .panic splitMidGtLenMsg
  | some (accountIdBytes, l1) =>
    match bytes_slice_to_uint32 accountIdBytes with
    | none => .panic unwrapNoneMsg
    | some account_id =>
      match splitAt? (ETHEREUM_KEY_BIT_WIDTH / 8) l1 with
      | none => .panic splitMidGtLenMsg
      | some (eth_address, l2) =>
        match splitAt? (TOKEN_BIT_WIDTH / 8) l2 with
        | none => .panic splitMidGtLenMsg
        | some (tokenBytes, l3) =>
          if l3 = [] then
            .ok (.FullExit ⟨account_id, eth_address, beNat tokenBytes⟩)
          else .error fullExitTooBigMsg

/-- Mirrors `FranklinPriorityOp::parse_from_priority_queue_logs`: dispatch
on the op-type byte over the two registered codes; any other byte is the
`bail!` error. -/
def FranklinPriorityOp.parse_from_priority_queue_logs
    (pub_data : List Nat) (op_type_id : Nat) : RResult FranklinPriorityOp :=
  if op_type_id = DepositOp.OP_CODE then depositDecode pub_data
  else if op_type_id = FullExitOp.OP_CODE then fullExitDecode pub_data
  else .error unsupportedOpTypeMsg

/-- Mirrors `web3::types::Log` at the fields this core reads: the data
payload bytes and the optional transaction hash. -/
structure Log where
  data : List Nat
  transaction_hash : Option (List Nat)
deriving DecidableEq

/-- The five values the envelope schema
`[Uint 64, Uint 8, Bytes, Uint 256, Uint 256]` decodes to. The `Uint`
tokens carry full 256-bit word values (the external decoder does not
range-check against the declared bit size). -/
structure DecodedEnvelope where
  serialId : Nat
  opType : Nat
  pubdata : List Nat
  deadlineBlock : Nat
  fee : Nat
deriving DecidableEq

/-- One 32-byte big-endian word at byte offset `off`, when in bounds. -/
def readWord (data : List Nat) (off : Nat) : Option Nat :=
  if off + 32 ≤ data.length then some (beNat ((data.drop off).take 32)) else none

/-- Modelled from the spec: the external contract-ABI decoder
(`ethabi::decode`, out of scope per the spec) applied to the fixed schema
`[Uint 64, Uint 8, Bytes, Uint 256, Uint 256]`: five head words, with the
third an offset to a length-prefixed byte string in the tail. -/
def abiDecode (data : List Nat) : Except String DecodedEnvelope :=
  match readWord data 0, readWord data 32, readWord data 64,
      readWord data 96, readWord data 128 with
  | some serialId, some opType, some off, some deadline, some fee =>
    match readWord data off with
    | some blen =>
      if off + 32 + blen ≤ data.length then
        .ok ⟨serialId, opType, (data.drop (off + 32)).take blen, deadline, fee⟩
      else .error invalidAbiDataMsg
    | none => .error invalidAbiDataMsg
  | _, _, _, _, _ => .error invalidAbiDataMsg

/-- Mirrors `struct PriorityOp`. -/
structure PriorityOp where
  serial_id : Nat
  data : FranklinPriorityOp
  deadline_block : Nat
  eth_fee : BigDecimal
  eth_hash : List Nat
deriving DecidableEq

/-- Mirrors `impl TryFrom<Log> for PriorityOp`. Field initializers run in
declaration order: `serial_id` (`U256::as_u64`, panics past 64 bits), the
op type (`as_u32` then `as u8` truncation), the pubdata parse wrapped in
`expect` (panics on a returned parse error), `deadline_block` (`as_u64`),
the fee via its decimal string, and the `expect`ed transaction hash. -/
def PriorityOp.try_from (event : Log) : RResult PriorityOp :=
  match abiDecode event.data with
  | .error e => .error (eventDecodeMsgPrefix ++ e)
  | .ok env =>
    if 2 ^ 64 ≤ env.serialId then .panic u256CastOverflowMsg
    else if 2 ^ 32 ≤ env.opType then .panic u256CastOverflowMsg
    else
      match FranklinPriorityOp.parse_from_priority_queue_logs
          env.pubdata (env.opType % 2 ^ 8) with
      | .error e => .panic (failedParsePrefix ++ e)
      | .panic e => .panic e
      | .ok d =>
        if 2 ^ 64 ≤ env.deadlineBlock then .panic u256CastOverflowMsg
        else
          match event.transaction_hash with
          | none => .panic missingTxHashMsg
          | some h =>
            .ok ⟨env.serialId, d, env.deadlineBlock,
              BigDecimal.from_str (formatNat env.fee), h⟩

/-- The Deposit scenario pubdata: 20 sender bytes 0x11, token bytes 0x0007,
the 16-byte big-endian amount for 10^18, 20 recipient bytes 0x22. -/
def c8Pubdata : List Nat :=
  List.replicate 20 17 ++ natToBeBytes 2 7
    ++ natToBeBytes 16 1000000000000000000 ++ List.replicate 20 34

/-- A 59-byte Deposit pubdata buffer (one trailing byte), used to show a
returned dispatcher error being turned into a panic by `try_from`. -/
def c2Pubdata : List Nat := List.replicate 59 17

/-- ABI-encoded envelope around `c2Pubdata`: serial 5, op type 1, bytes
offset 160, deadline 100, fee 0, then the length word and padded bytes. -/
def c2LogData : List Nat :=
  natToBeBytes 32 5 ++ natToBeBytes 32 1 ++ natToBeBytes 32 160
    ++ natToBeBytes 32 100 ++ natToBeBytes 32 0
    ++ natToBeBytes 32 59 ++ c2Pubdata ++ List.replicate 5 0

/-- A log carrying `c2LogData` and a present transaction hash. -/
def c2Log : Log := ⟨c2LogData, some (List.replicate 32 171)⟩

/-- The envelope `c2LogData` decodes to. -/
def c2Env : DecodedEnvelope := ⟨5, 1, c2Pubdata, 100, 0⟩

/-- ABI-encoded envelope whose serial-id word holds `2 ^ 64` (one past the
u64 range), with a valid 58-byte Deposit pubdata. -/
def c4LogData : List Nat :=
  natToBeBytes 32 (2 ^ 64) ++ natToBeBytes 32 1 ++ natToBeBytes 32 160
    ++ natToBeBytes 32 100 ++ natToBeBytes 32 0
    ++ natToBeBytes 32 58 ++ List.replicate 58 17 ++ List.replicate 6 0

/-- A log carrying `c4LogData` and a present transaction hash. -/
def c4Log : Log := ⟨c4LogData, some (List.replicate 32 171)⟩

/-- The envelope `c4LogData` decodes to. -/
def c4Env : DecodedEnvelope := ⟨2 ^ 64, 1, List.replicate 58 17, 100, 0⟩

/-- ABI-encoded envelope with serial 7, op type 1, a valid 58-byte Deposit
pubdata, deadline 100 and fee 3. -/
def c5LogData : List Nat :=
  natToBeBytes 32 7 ++ natToBeBytes 32 1 ++ natToBeBytes 32 160
    ++ natToBeBytes 32 100 ++ natToBeBytes 32 3
    ++ natToBeBytes 32 58 ++ List.replicate 58 17 ++ List.replicate 6 0

/-- A log carrying `c5LogData` but lacking a transaction hash. -/
def c5Log : Log := ⟨c5LogData, none⟩

/-- The envelope `c5LogData` decodes to. -/
def c5Env : DecodedEnvelope := ⟨7, 1, List.replicate 58 17, 100, 3⟩

/-- The parsed operation of the 58-byte all-0x11 Deposit pubdata. -/
def c5Data : FranklinPriorityOp :=
  .Deposit ⟨List.replicate 20 17, beNat (List.replicate 2 17),
    u128_to_bigdecimal (beNat (List.replicate 16 17)), List.replicate 20 17⟩

/-! Helper lemmas shared by the claims. -/

theorem length_natToBeBytes (w n : Nat) : (natToBeBytes w n).length = w := by
  induction w generalizing n with
  | zero => rfl
  | succ w ih => simp [natToBeBytes, ih]

theorem beNat_foldl (w n acc : Nat) :
    List.foldl (fun a b => a * 256 + b) acc (natToBeBytes w n)
      = acc * 256 ^ w + n % 256 ^ w := by
  induction w generalizing n acc with
  | zero => simp [natToBeBytes, Nat.mod_one]
  | succ w ih =>
    have hsplit : n % 256 ^ (w + 1) = n / 256 ^ w % 256 * 256 ^ w + n % 256 ^ w := by
      rw [Nat.pow_succ, Nat.mod_mul]
      ring
    simp only [natToBeBytes, List.foldl_cons, ih]
    rw [hsplit, Nat.pow_succ]
    ring

theorem beNat_natToBeBytes (w n : Nat) : beNat (natToBeBytes w n) = n % 256 ^ w := by
  simpa using beNat_foldl w n 0

theorem splitAt?_append (l1 l2 : List Nat) (n : Nat) (h : l1.length = n) :
    splitAt? n (l1 ++ l2) = some (l1, l2) := by
  have hle : n ≤ l1.length + l2.length := by omega
  simp [splitAt?, hle, List.take_left' h, List.drop_left' h]

theorem splitAt?_all (l : List Nat) (n : Nat) (h : l.length = n) :
    splitAt? n l = some (l, []) := by
  subst h
  simp [splitAt?]

theorem parse_deposit_code (pd : List Nat) :
    FranklinPriorityOp.parse_from_priority_queue_logs pd DepositOp.OP_CODE
      = depositDecode pd := by
  simp [FranklinPriorityOp.parse_from_priority_queue_logs]

theorem parse_fullexit_code (pd : List Nat) :
    FranklinPriorityOp.parse_from_priority_queue_logs pd FullExitOp.OP_CODE
      = fullExitDecode pd := by
  simp [FranklinPriorityOp.parse_from_priority_queue_logs, DepositOp.OP_CODE,
    FullExitOp.OP_CODE]

theorem parse_other_code (pd : List Nat) (b : Nat)
    (h1 : b ≠ DepositOp.OP_CODE) (h2 : b ≠ FullExitOp.OP_CODE) :
    FranklinPriorityOp.parse_from_priority_queue_logs pd b
      = RResult.error unsupportedOpTypeMsg := by
  simp [FranklinPriorityOp.parse_from_priority_queue_logs, h1, h2]

theorem depositDecode_len_ok (pd : List Nat) (h : pd.length = 58) :
    (depositDecode pd).isOk = true := by
  have h5 : pd.drop 58 = [] := List.drop_eq_nil_iff.mpr (by omega)
  simp [depositDecode, splitAt?, ETHEREUM_KEY_BIT_WIDTH, TOKEN_BIT_WIDTH,
    BALANCE_BIT_WIDTH, FR_ADDRESS_LEN, h, h5, RResult.isOk]

theorem depositDecode_len_big (pd : List Nat) (h : 58 < pd.length) :
    depositDecode pd = RResult.error depositTooBigMsg := by
  have h1 : 20 ≤ pd.length := by omega
  have h2 : 2 ≤ pd.length - 20 := by omega
  have h3 : 16 ≤ pd.length - 22 := by omega
  have h4 : 20 ≤ pd.length - 38 := by omega
  have h5 : ¬ pd.drop 58 = [] := by
    rw [List.drop_eq_nil_iff]
    omega
  simp [depositDecode, splitAt?, ETHEREUM_KEY_BIT_WIDTH, TOKEN_BIT_WIDTH,
    BALANCE_BIT_WIDTH, FR_ADDRESS_LEN, h1, h2, h3, h4, h5]

theorem depositDecode_len_short (pd : List Nat) (h : pd.length < 58) :
    (depositDecode pd).isPanic = true := by
  by_cases h1 : 20 ≤ pd.length
  · by_cases h2 : 2 ≤ pd.length - 20
    · by_cases h3 : 16 ≤ pd.length - 22
      · have h4 : ¬ 20 ≤ pd.length - 38 := by omega
        simp [depositDecode, splitAt?, ETHEREUM_KEY_BIT_WIDTH, TOKEN_BIT_WIDTH,
          BALANCE_BIT_WIDTH, FR_ADDRESS_LEN, h1, h2, h3, h4, RResult.isPanic]
      · simp [depositDecode, splitAt?, ETHEREUM_KEY_BIT_WIDTH, TOKEN_BIT_WIDTH,
          BALANCE_BIT_WIDTH, h1, h2, h3, RResult.isPanic]
    · simp [depositDecode, splitAt?, ETHEREUM_KEY_BIT_WIDTH, TOKEN_BIT_WIDTH,
        h1, h2, RResult.isPanic]
  · simp [depositDecode, splitAt?, ETHEREUM_KEY_BIT_WIDTH, h1, RResult.isPanic]

theorem fullExitDecode_len_ok (pd : List Nat) (h : pd.length = 25) :
    (fullExitDecode pd).isOk = true := by
  have h5 : pd.drop 25 = [] := List.drop_eq_nil_iff.mpr (by omega)
  simp [fullExitDecode, splitAt?, bytes_slice_to_uint32, ACCOUNT_ID_BIT_WIDTH,
    ETHEREUM_KEY_BIT_WIDTH, TOKEN_BIT_WIDTH, h, h5, RResult.isOk]

theorem fullExitDecode_len_big (pd : List Nat) (h : 25 < pd.length) :
    fullExitDecode pd = RResult.error fullExitTooBigMsg := by
  have h1 : 3 ≤ pd.length := by omega
  have h0 : min 3 pd.length ≤ 4 := by omega
  have h2 : 20 ≤ pd.length - 3 := by omega
  have h3 : 2 ≤ pd.length - 23 := by omega
  have h5 : ¬ pd.drop 25 = [] := by
    rw [List.drop_eq_nil_iff]
    omega
  simp [fullExitDecode, splitAt?, bytes_slice_to_uint32, ACCOUNT_ID_BIT_WIDTH,
    ETHEREUM_KEY_BIT_WIDTH, TOKEN_BIT_WIDTH, h0, h1, h2, h3, h5]

theorem fullExitDecode_len_short (pd : List Nat) (h : pd.length < 25) :
    (fullExitDecode pd).isPanic = true := by
  by_cases h1 : 3 ≤ pd.length
  · have h0 : min 3 pd.length ≤ 4 := by omega
    by_cases h2 : 20 ≤ pd.length - 3
    · have h3 : ¬ 2 ≤ pd.length - 23 := by omega
      simp [fullExitDecode, splitAt?, bytes_slice_to_uint32, ACCOUNT_ID_BIT_WIDTH,
        ETHEREUM_KEY_BIT_WIDTH, TOKEN_BIT_WIDTH, h0, h1, h2, h3, RResult.isPanic]
    · simp [fullExitDecode, splitAt?, bytes_slice_to_uint32, ACCOUNT_ID_BIT_WIDTH,
        ETHEREUM_KEY_BIT_WIDTH, h0, h1, h2, RResult.isPanic]
  · simp [fullExitDecode, splitAt?, ACCOUNT_ID_BIT_WIDTH, h1, RResult.isPanic]

/-! Claim theorems. -/

/-- C1 counterexample: a 57-byte Deposit pubdata buffer (one byte short of
the 58-byte layout) makes the parser abort in `slice::split_at` — a panic,
not a returned MalformedPubdata error, refuting the claim that a too-short
buffer fails with a MalformedPubdata error. -/
theorem C1_counterexample :
    FranklinPriorityOp.parse_from_priority_queue_logs (List.replicate 57 17)
        DepositOp.OP_CODE
      = RResult.panic splitMidGtLenMsg
    ∧ (FranklinPriorityOp.parse_from_priority_queue_logs (List.replicate 57 17)
        DepositOp.OP_CODE).isError = false := by
  constructor
  · rfl
  · rfl

/-- C1 (amended): for each registered kind, a pubdata buffer of exactly the
expected layout length (58 bytes for Deposit, 25 for FullExit) decodes
successfully; any longer buffer fails with the returned MalformedPubdata
"input too big" error; any shorter buffer makes the parser panic in
`slice::split_at` rather than return an error. -/
theorem C1_exact_consumption (pd : List Nat) :
    (pd.length = 58 →
      (FranklinPriorityOp.parse_from_priority_queue_logs pd DepositOp.OP_CODE).isOk
        = true)
    ∧ (58 < pd.length →
      FranklinPriorityOp.parse_from_priority_queue_logs pd DepositOp.OP_CODE
        = RResult.error depositTooBigMsg)
    ∧ (pd.length < 58 →
      (FranklinPriorityOp.parse_from_priority_queue_logs pd DepositOp.OP_CODE).isPanic
        = true)
    ∧ (pd.length = 25 →
      (FranklinPriorityOp.parse_from_priority_queue_logs pd FullExitOp.OP_CODE).isOk
        = true)
    ∧ (25 < pd.length →
      FranklinPriorityOp.parse_from_priority_queue_logs pd FullExitOp.OP_CODE
        = RResult.error fullExitTooBigMsg)
    ∧ (pd.length < 25 →
      (FranklinPriorityOp.parse_from_priority_queue_logs pd FullExitOp.OP_CODE).isPanic
        = true) := by
  rw [parse_deposit_code, parse_fullexit_code]
  exact ⟨depositDecode_len_ok pd, depositDecode_len_big pd, depositDecode_len_short pd,
    fullExitDecode_len_ok pd, fullExitDecode_len_big pd, fullExitDecode_len_short pd⟩

/-- C1 witness: the six length cases at concrete buffers — 58/59/57 bytes
for Deposit and 25/26/24 bytes for FullExit. -/
theorem C1_witness :
    (FranklinPriorityOp.parse_from_priority_queue_logs (List.replicate 58 17)
        DepositOp.OP_CODE).isOk = true
    ∧ FranklinPriorityOp.parse_from_priority_queue_logs (List.replicate 59 17)
        DepositOp.OP_CODE = RResult.error depositTooBigMsg
    ∧ (FranklinPriorityOp.parse_from_priority_queue_logs (List.replicate 57 17)
        DepositOp.OP_CODE).isPanic = true
    ∧ (FranklinPriorityOp.parse_from_priority_queue_logs (List.replicate 25 17)
        FullExitOp.OP_CODE).isOk = true
    ∧ FranklinPriorityOp.parse_from_priority_queue_logs (List.replicate 26 17)
        FullExitOp.OP_CODE = RResult.error fullExitTooBigMsg
    ∧ (FranklinPriorityOp.parse_from_priority_queue_logs (List.replicate 24 17)
        FullExitOp.OP_CODE).isPanic = true :=
  ⟨(C1_exact_consumption (List.replicate 58 17)).1 (by simp),
    (C1_exact_consumption (List.replicate 59 17)).2.1 (by simp),
    (C1_exact_consumption (List.replicate 57 17)).2.2.1 (by simp),
    (C1_exact_consumption (List.replicate 25 17)).2.2.2.1 (by simp),
    (C1_exact_consumption (List.replicate 26 17)).2.2.2.2.1 (by simp),
    (C1_exact_consumption (List.replicate 24 17)).2.2.2.2.2 (by simp)⟩

/-- C6 counterexample: two distinct unregistered op-type bytes (0 and 3)
produce the identical constant error message "Unsupported priority op
type" — the error does not name the unrecognized value, refuting that part
of the claim. -/
theorem C6_counterexample :
    FranklinPriorityOp.parse_from_priority_queue_logs [] 0
      = RResult.error unsupportedOpTypeMsg
    ∧ FranklinPriorityOp.parse_from_priority_queue_logs [] 3
      = RResult.error unsupportedOpTypeMsg := by
  constructor
  · rfl
  · rfl

/-- C6 (amended): every op-type byte outside the two registered codes
fails with the UnsupportedOperationType error, whose message is the fixed
string "Unsupported priority op type" (it does not name the value); each
registered code invokes exactly its kind's codec on the pubdata. -/
theorem C6_discriminant_exhaustiveness (pd : List Nat) (b : Nat) (hb : b < 256)
    (h1 : b ≠ DepositOp.OP_CODE) (h2 : b ≠ FullExitOp.OP_CODE) :
    FranklinPriorityOp.parse_from_priority_queue_logs pd b
      = RResult.error unsupportedOpTypeMsg
    ∧ FranklinPriorityOp.parse_from_priority_queue_logs pd DepositOp.OP_CODE
      = depositDecode pd
    ∧ FranklinPriorityOp.parse_from_priority_queue_logs pd FullExitOp.OP_CODE
      = fullExitDecode pd :=
  ⟨parse_other_code pd b h1 h2, parse_deposit_code pd, parse_fullexit_code pd⟩

/-- C6 witness: the amended claim at byte 0 with the empty pubdata. -/
theorem C6_witness :
    FranklinPriorityOp.parse_from_priority_queue_logs [] 0
      = RResult.error unsupportedOpTypeMsg
    ∧ FranklinPriorityOp.parse_from_priority_queue_logs [] DepositOp.OP_CODE
      = depositDecode []
    ∧ FranklinPriorityOp.parse_from_priority_queue_logs [] FullExitOp.OP_CODE
      = fullExitDecode [] :=
  C6_discriminant_exhaustiveness [] 0 (by decide) (by decide) (by decide)

/-- C8: decoding the scenario Deposit pubdata yields exactly
`Deposit{from: 0x11…11, token: 7, amount: 10^18, to: 0x22…22}`, and the
decoded amount denotes 10^18 exactly. -/
theorem C8_deposit_scenario :
    FranklinPriorityOp.parse_from_priority_queue_logs c8Pubdata DepositOp.OP_CODE
      = RResult.ok (FranklinPriorityOp.Deposit
          ⟨List.replicate 20 17, 7, u128_to_bigdecimal 1000000000000000000,
            List.replicate 20 34⟩)
    ∧ (u128_to_bigdecimal 1000000000000000000).intVal = 1000000000000000000 := by
  constructor
  · decide
  · rfl

theorem get_bytes_eq (v : FullExit) :
    v.get_bytes
      = 6 :: (natToBeBytes 3 v.account_id
          ++ (v.eth_address ++ natToBeBytes 2 v.token)) := by
  show [FullExit.TX_TYPE] ++ (natToBeBytes 4 v.account_id).drop 1
      ++ v.eth_address ++ natToBeBytes 2 v.token = _
  have hdrop : (natToBeBytes 4 v.account_id).drop 1 = natToBeBytes 3 v.account_id := rfl
  rw [hdrop]
  simp [FullExit.TX_TYPE, List.append_assoc]

theorem fullExitDecode_fields (a e t : List Nat)
    (ha : a.length = 3) (he : e.length = 20) (ht : t.length = 2) :
    fullExitDecode (a ++ (e ++ t))
      = RResult.ok (.FullExit ⟨beNat a, e, beNat t⟩) := by
  have ha4 : a.length ≤ 4 := by omega
  simp only [fullExitDecode, show ACCOUNT_ID_BIT_WIDTH / 8 = 3 from rfl,
    show ETHEREUM_KEY_BIT_WIDTH / 8 = 20 from rfl,
    show TOKEN_BIT_WIDTH / 8 = 2 from rfl,
    splitAt?_append a (e ++ t) 3 ha, splitAt?_append e t 20 he,
    splitAt?_all t 2 ht, bytes_slice_to_uint32, ha4, if_true]

/-- C3: for a valid FullExit value (account id within the 24-bit protocol
width, a 20-byte address, a 16-bit token), decoding the encoder's output —
its first byte as the discriminant and the remainder as pubdata — yields
back the equal FullExit value, and the encoding has the fixed canonical
length 1 + 3 + 20 + 2. -/
theorem C3_fullexit_roundtrip (v : FullExit) (hacc : v.account_id < 2 ^ 24)
    (haddr : v.eth_address.length = 20) (htok : v.token < 2 ^ 16) :
    FranklinPriorityOp.parse_from_priority_queue_logs (v.get_bytes.drop 1)
        (v.get_bytes.headD 0)
      = RResult.ok (FranklinPriorityOp.FullExit v)
    ∧ v.get_bytes.length = 1 + 3 + 20 + 2 := by
  constructor
  · rw [get_bytes_eq]
    simp only [List.headD_cons, List.drop_succ_cons, List.drop_zero]
    rw [show (6 : Nat) = FullExitOp.OP_CODE from rfl, parse_fullexit_code]
    rw [fullExitDecode_fields (natToBeBytes 3 v.account_id) v.eth_address
      (natToBeBytes 2 v.token) (length_natToBeBytes 3 _) haddr
      (length_natToBeBytes 2 _)]
    rw [beNat_natToBeBytes, beNat_natToBeBytes]
    rw [Nat.mod_eq_of_lt (by exact_mod_cast hacc),
      Nat.mod_eq_of_lt (by exact_mod_cast htok)]
  · rw [get_bytes_eq]
    simp [length_natToBeBytes, haddr]

/-- C3 witness: the round trip and the canonical length at the concrete
FullExit with account id 42, address 0x33…33, token 9. -/
theorem C3_witness :
    FranklinPriorityOp.parse_from_priority_queue_logs
        ((FullExit.get_bytes ⟨42, List.replicate 20 51, 9⟩).drop 1)
        ((FullExit.get_bytes ⟨42, List.replicate 20 51, 9⟩).headD 0)
      = RResult.ok (FranklinPriorityOp.FullExit ⟨42, List.replicate 20 51, 9⟩)
    ∧ (FullExit.get_bytes ⟨42, List.replicate 20 51, 9⟩).length = 1 + 3 + 20 + 2 :=
  C3_fullexit_roundtrip ⟨42, List.replicate 20 51, 9⟩ (by decide) (by simp) (by decide)

/-- C7: the FullExit encoder emits, in order, the one-byte discriminant 6,
the 3-byte big-endian account id (the u32 representation with its
most-significant byte dropped), the address bytes, and the 2-byte
big-endian token id; in particular, for account id 42, address 0x33…33,
token 9 the output is 0x06, bytes 00 00 2A, the address, then 0x0009. -/
theorem C7_fullexit_encoding (v : FullExit) :
    v.get_bytes
      = 6 :: (natToBeBytes 3 v.account_id
          ++ (v.eth_address ++ natToBeBytes 2 v.token))
    ∧ FullExit.get_bytes ⟨42, List.replicate 20 51, 9⟩
      = [6, 0, 0, 42] ++ (List.replicate 20 51 ++ [0, 9]) := by
  constructor
  · exact get_bytes_eq v
  · decide

/-- C2 counterexample: for the log `c2Log`, whose envelope decodes and
whose 59-byte Deposit pubdata makes the Dispatcher return the
MalformedPubdata "input too big" error, `try_from` does not return that
error — it panics (the `expect` around the parse), refuting the claim that
the conversion fails by returning the Dispatcher's error. -/
theorem C2_counterexample :
    FranklinPriorityOp.parse_from_priority_queue_logs c2Pubdata DepositOp.OP_CODE
      = RResult.error depositTooBigMsg
    ∧ PriorityOp.try_from c2Log
      = RResult.panic (failedParsePrefix ++ depositTooBigMsg)
    ∧ (PriorityOp.try_from c2Log).isError = false := by
  refine ⟨rfl, rfl, rfl⟩

/-- C2 (amended): when the envelope decodes (and the serial-id and op-type
narrowings succeed) but the pubdata parse fails with a returned error,
`try_from` panics with the `expect` message wrapping the Dispatcher's
error instead of returning it; a Dispatcher panic propagates as the same
panic. -/
theorem C2_envelope_propagation (log : Log) (env : DecodedEnvelope)
    (hdec : abiDecode log.data = Except.ok env)
    (hs : env.serialId < 2 ^ 64) (ht : env.opType < 2 ^ 32) :
    (∀ e, FranklinPriorityOp.parse_from_priority_queue_logs env.pubdata
          (env.opType % 2 ^ 8) = RResult.error e →
        PriorityOp.try_from log = RResult.panic (failedParsePrefix ++ e))
    ∧ (∀ e, FranklinPriorityOp.parse_from_priority_queue_logs env.pubdata
          (env.opType % 2 ^ 8) = RResult.panic e →
        PriorityOp.try_from log = RResult.panic e) := by
  have hs' : ¬ 2 ^ 64 ≤ env.serialId := by omega
  have ht' : ¬ 2 ^ 32 ≤ env.opType := by omega
  constructor
  · intro e he
    simp only [PriorityOp.try_from, hdec]
    rw [if_neg hs', if_neg ht', he]
  · intro e he
    simp only [PriorityOp.try_from, hdec]
    rw [if_neg hs', if_neg ht', he]

/-- C2 witness: the amended claim at the concrete log `c2Log`. -/
theorem C2_witness :
    PriorityOp.try_from c2Log
      = RResult.panic (failedParsePrefix ++ depositTooBigMsg) :=
  (C2_envelope_propagation c2Log c2Env rfl (by decide) (by decide)).1
    depositTooBigMsg rfl

/-- C4 counterexample: for the log `c4Log`, whose serial-id word holds
`2 ^ 64`, `try_from` panics in `U256::as_u64` — it neither returns an
IntegerRangeError-style error to the caller nor succeeds, refuting the
claim that the out-of-range narrowing is a failure returned to the
caller. -/
theorem C4_counterexample :
    PriorityOp.try_from c4Log = RResult.panic u256CastOverflowMsg
    ∧ (PriorityOp.try_from c4Log).isError = false
    ∧ (PriorityOp.try_from c4Log).isOk = false := by
  refine ⟨rfl, rfl, rfl⟩

/-- C4 (amended): a serial-id value past 64 bits makes `try_from` panic
(`U256::as_u64` aborts; nothing is returned to the caller), and the
conversion never silently truncates: whenever it succeeds, the record's
serial id and deadline block equal the envelope's values, which are then
within 64 bits. -/
theorem C4_narrowing (log : Log) (env : DecodedEnvelope)
    (hdec : abiDecode log.data = Except.ok env) :
    (2 ^ 64 ≤ env.serialId →
      PriorityOp.try_from log = RResult.panic u256CastOverflowMsg)
    ∧ (∀ rec, PriorityOp.try_from log = RResult.ok rec →
        rec.serial_id = env.serialId ∧ rec.deadline_block = env.deadlineBlock
          ∧ env.serialId < 2 ^ 64 ∧ env.deadlineBlock < 2 ^ 64) := by
  constructor
  · intro h
    simp only [PriorityOp.try_from, hdec]
    rw [if_pos h]
  · intro rec hrec
    simp only [PriorityOp.try_from, hdec] at hrec
    by_cases h1 : 2 ^ 64 ≤ env.serialId
    · rw [if_pos h1] at hrec
      exact RResult.noConfusion hrec
    · rw [if_neg h1] at hrec
      by_cases h2 : 2 ^ 32 ≤ env.opType
      · rw [if_pos h2] at hrec
        exact RResult.noConfusion hrec
      · rw [if_neg h2] at hrec
        cases hp : FranklinPriorityOp.parse_from_priority_queue_logs env.pubdata
            (env.opType % 2 ^ 8) with
        | error e =>
          rw [hp] at hrec
          exact RResult.noConfusion hrec
        | panic e =>
          rw [hp] at hrec
          exact RResult.noConfusion hrec
        | ok d =>
          rw [hp] at hrec
          simp only [] at hrec
          by_cases h3 : 2 ^ 64 ≤ env.deadlineBlock
          · rw [if_pos h3] at hrec
            exact RResult.noConfusion hrec
          · rw [if_neg h3] at hrec
            cases hh : log.transaction_hash with
            | none =>
              rw [hh] at hrec
              exact RResult.noConfusion hrec
            | some hsh =>
              rw [hh] at hrec
              injection hrec with h
              subst h
              exact ⟨rfl, rfl, by omega, by omega⟩

/-- C4 witness: the panic branch of the amended claim at `c4Log`. -/
theorem C4_witness :
    PriorityOp.try_from c4Log = RResult.panic u256CastOverflowMsg :=
  (C4_narrowing c4Log c4Env rfl).1 (by decide)

/-- C5 counterexample: for the log `c5Log`, whose envelope decodes and
whose pubdata parses but which lacks a transaction hash, `try_from`
panics (the `expect` on the hash) — no MissingTransactionHash error is
returned to the caller, refuting the claim's "error returned" part. -/
theorem C5_counterexample :
    PriorityOp.try_from c5Log = RResult.panic missingTxHashMsg
    ∧ (PriorityOp.try_from c5Log).isError = false := by
  refine ⟨rfl, rfl⟩

/-- C5 (amended): when the envelope decodes, the narrowings succeed, the
pubdata parses, and the log lacks a transaction hash, `try_from` panics
with "Event transaction hash is missing" — an unconditional abort rather
than a returned error, and never proceeds with an empty or zero hash. -/
theorem C5_missing_hash (log : Log) (env : DecodedEnvelope)
    (d : FranklinPriorityOp)
    (hdec : abiDecode log.data = Except.ok env)
    (hs : env.serialId < 2 ^ 64) (ht : env.opType < 2 ^ 32)
    (hp : FranklinPriorityOp.parse_from_priority_queue_logs env.pubdata
        (env.opType % 2 ^ 8) = RResult.ok d)
    (hd : env.deadlineBlock < 2 ^ 64)
    (hh : log.transaction_hash = none) :
    PriorityOp.try_from log = RResult.panic missingTxHashMsg := by
  have hs' : ¬ 2 ^ 64 ≤ env.serialId := by omega
  have ht' : ¬ 2 ^ 32 ≤ env.opType := by omega
  have hd' : ¬ 2 ^ 64 ≤ env.deadlineBlock := by omega
  simp only [PriorityOp.try_from, hdec]
  rw [if_neg hs', if_neg ht']
  simp only [hp]
  rw [if_neg hd']
  simp only [hh]

/-- C5 witness: the amended claim at the concrete hashless log `c5Log`. -/
theorem C5_witness :
    PriorityOp.try_from c5Log = RResult.panic missingTxHashMsg :=
  C5_missing_hash c5Log c5Env c5Data rfl (by decide) (by decide) rfl
    (by decide) rfl

theorem foldl_digits_be (fuel n : Nat) (h : n ≤ fuel) :
    List.foldl (fun a d => a * 10 + d) 0 (natToDigitsBE (fuel + 1) n) = n := by
  induction fuel generalizing n with
  | zero =>
    have h0 : n = 0 := by omega
    subst h0
    rfl
  | succ fuel ih =>
    have hunfold : natToDigitsBE (fuel + 1 + 1) n
        = if n < 10 then [n]
          else natToDigitsBE (fuel + 1) (n / 10) ++ [n % 10] := rfl
    by_cases h10 : n < 10
    · rw [hunfold, if_pos h10]
      simp
    · have hdiv : n / 10 < n := Nat.div_lt_self (by omega) (by omega)
      have hle : n / 10 ≤ fuel := by omega
      rw [hunfold, if_neg h10, List.foldl_append, ih (n / 10) hle]
      simp only [List.foldl_cons, List.foldl_nil]
      omega

/-- C9: the 128-bit amount conversion is exact for every value in range
(the decimal's mantissa is the value itself, at scale 0), and the fee
conversion through the canonical base-10 digit string is exact for every
value: parsing the formatted digits returns exactly the integer, with no
fractional scale. -/
theorem C9_decimal_exactness (a f : Nat) (ha : a < 2 ^ 128) :
    ((u128_to_bigdecimal a).intVal = a ∧ (u128_to_bigdecimal a).scale = 0)
    ∧ ((BigDecimal.from_str (formatNat f)).intVal = f
        ∧ (BigDecimal.from_str (formatNat f)).scale = 0) :=
  ⟨⟨rfl, rfl⟩, ⟨foldl_digits_be f f (Nat.le_refl f), rfl⟩⟩

/-- C9 witness: exactness at the amount values 0 and `2 ^ 128 - 1` and at
the fee values 0 and `2 ^ 128 - 1`. -/
theorem C9_witness :
    (((u128_to_bigdecimal 0).intVal = 0 ∧ (u128_to_bigdecimal 0).scale = 0)
      ∧ ((BigDecimal.from_str (formatNat 0)).intVal = 0
          ∧ (BigDecimal.from_str (formatNat 0)).scale = 0))
    ∧ (((u128_to_bigdecimal (2 ^ 128 - 1)).intVal = 2 ^ 128 - 1
          ∧ (u128_to_bigdecimal (2 ^ 128 - 1)).scale = 0)
      ∧ ((BigDecimal.from_str (formatNat (2 ^ 128 - 1))).intVal = 2 ^ 128 - 1
          ∧ (BigDecimal.from_str (formatNat (2 ^ 128 - 1))).scale = 0)) :=
  ⟨C9_decimal_exactness 0 0 (by decide),
    C9_decimal_exactness (2 ^ 128 - 1) (2 ^ 128 - 1) (by decide)⟩

/-- C10: the pubdata parser and the log-to-record conversion are
deterministic pure functions of their inputs — equal pubdata and op-type
bytes, or equal logs, always produce equal results; in this embedding both
are total functions with no ambient state. -/
theorem C10_purity (pd1 pd2 : List Nat) (t1 t2 : Nat) (l1 l2 : Log)
    (hpd : pd1 = pd2) (ht : t1 = t2) (hl : l1 = l2) :
    FranklinPriorityOp.parse_from_priority_queue_logs pd1 t1
      = FranklinPriorityOp.parse_from_priority_queue_logs pd2 t2
    ∧ PriorityOp.try_from l1 = PriorityOp.try_from l2 := by
  subst hpd
  subst ht
  subst hl
  exact ⟨rfl, rfl⟩

/-- C10 witness: determinism at a concrete pubdata, op type and log. -/
theorem C10_witness :
    FranklinPriorityOp.parse_from_priority_queue_logs [] 0
      = FranklinPriorityOp.parse_from_priority_queue_logs [] 0
    ∧ PriorityOp.try_from ⟨[], none⟩ = PriorityOp.try_from ⟨[], none⟩ :=
  C10_purity [] [] 0 0 ⟨[], none⟩ ⟨[], none⟩ rfl rfl rfl
